import Mathlib

/-!
Shallow embedding of examples/kv/tests/graphql_helper.py: a helper script that
discovers cluster topology over a GraphQL control-plane API, locates the
bootstrap node, and assigns the key-value role to it.

Python values decoded from JSON are modelled by the inductive type Json;
Python runtime exceptions (KeyError, TypeError, IndexError, AssertionError,
and transport-level URLError) are modelled by PyError, and fallible Python
expressions by Except PyError.  Network interaction is modelled by an
environment record holding, for each of the script's HTTP calls, the parsed
response body (or the transport error the call would raise).
-/

namespace GraphqlHelper

/-- A JSON value as produced by Python json.loads: null, booleans, numbers
(modelled as integers; no claim depends on fractional values), strings,
arrays, and objects (ordered key/value association lists, as Python dicts
preserve insertion order). -/
inductive Json where
  | null : Json
  | bool (b : Bool) : Json
  | num (n : Int) : Json
  | str (s : String) : Json
  | arr (elems : List Json) : Json
  | obj (entries : List (String × Json)) : Json
  deriving Repr

/-- Structural equality on JSON values, modelling the Python == used by the
script (it only ever compares decoded JSON values). -/
def Json.beq (a b : Json) : Bool :=
  match a, b with
  | .null, .null => true
  | .bool x, .bool y => x == y
  | .num x, .num y => x == y
  | .str x, .str y => x == y
  | .arr xs, .arr ys => beqElems xs ys
  | .obj xs, .obj ys => beqEntries xs ys
  | _, _ => false
where
  beqElems : List Json → List Json → Bool
    | [], [] => true
    | x :: xs, y :: ys => Json.beq x y && beqElems xs ys
    | _, _ => false
  beqEntries : List (String × Json) → List (String × Json) → Bool
    | [], [] => true
    | (k, v) :: xs, (l, w) :: ys => k == l && Json.beq v w && beqEntries xs ys
    | _, _ => false

instance : BEq Json := ⟨Json.beq⟩

/-- Python runtime exceptions the script can raise, plus the transport-level
error (urllib URLError) a network call can raise. -/
inductive PyError where
  | keyError : PyError
  | typeError : PyError
  | indexError : PyError
  | assertionError : PyError
  | transportError : PyError
  deriving DecidableEq, Repr

/-- Python membership test (k in j) for a string k against a decoded JSON
value j: key membership for dicts, element membership for lists, substring
test for strings; raises TypeError on the remaining (non-container) values. -/
def pyContains (k : String) : Json → Except PyError Bool
  | .obj entries => .ok (entries.any (fun kv => kv.1 == k))
  | .arr elems => .ok (elems.any (fun e => e == Json.str k))
  | .str s => .ok (2 ≤ (s.splitOn k).length)
  | _ => .error .typeError

/-- Python subscript j[k] with a string key: dict lookup (KeyError when the
key is absent); TypeError on every non-dict value, as string subscripts are
invalid for lists, strings, numbers, booleans and None. -/
def pySubscript (j : Json) (k : String) : Except PyError Json :=
  match j with
  | .obj entries =>
      match entries.find? (fun kv => kv.1 == k) with
      | some kv => .ok kv.2
      | none => .error .keyError
  | _ => .error .typeError

/-- Python iteration over a decoded JSON value, as consumed by list(map(f, x)):
lists yield their elements, dicts their keys, strings their characters;
the remaining values raise TypeError. -/
def pyIter : Json → Except PyError (List Json)
  | .arr elems => .ok elems
  | .obj entries => .ok (entries.map (fun kv => Json.str kv.1))
  | .str s => .ok (s.toList.map (fun c => Json.str (String.mk [c])))
  | _ => .error .typeError

/-- Python subscript xs[0] on a list: IndexError when the list is empty. -/
def pyIndex0 {α : Type} : List α → Except PyError α
  | [] => .error .indexError
  | x :: _ => .ok x

/-- The ServerDescription namedtuple: fields uri, alias, status, uuid,
message, replicaset, in source order.  The alias field is renamed aliasName
because alias is a Lean keyword.  Field values are decoded JSON values;
parse_server_description fills absent fields with None (Json.null). -/
structure ServerDescription where
  uri : Json
  aliasName : Json
  status : Json
  uuid : Json
  message : Json
  replicaset : Json
  deriving Repr

/-- One element of the comprehension in parse_server_description:
(kwdict[prop] if prop in kwdict else None). -/
def server_description_field (kwdict : Json) (prop : String) : Except PyError Json :=
  match pyContains prop kwdict with
  | .error e => .error e
  | .ok c => if c then pySubscript kwdict prop else .ok Json.null

/-- parse_server_description: builds a ServerDescription from a decoded JSON
value, taking each field from the dict when present and None otherwise, in
the order of __server_description_fields. -/
def parse_server_description (kwdict : Json) : Except PyError ServerDescription :=
  match server_description_field kwdict "uri" with
  | .error e => .error e
  | .ok uri =>
    match server_description_field kwdict "alias" with
    | .error e => .error e
    | .ok aliasName =>
      match server_description_field kwdict "status" with
      | .error e => .error e
      | .ok status =>
        match server_description_field kwdict "uuid" with
        | .error e => .error e
        | .ok uuid =>
          match server_description_field kwdict "message" with
          | .error e => .error e
          | .ok message =>
            match server_description_field kwdict "replicaset" with
            | .error e => .error e
            | .ok replicaset => .ok ⟨uri, aliasName, status, uuid, message, replicaset⟩

/-- list(map(parse_server_description, items)): parses each element in
order, propagating the first exception raised. -/
def parse_server_list : List Json → Except PyError (List ServerDescription)
  | [] => .ok []
  | x :: xs =>
    match parse_server_description x with
    | .error e => .error e
    | .ok s =>
      match parse_server_list xs with
      | .error e => .error e
      | .ok ss => .ok (s :: ss)

/-- find(predicate, seq, default): returns the first element of seq
satisfying the predicate, and default when none does.  The script always
passes an explicit default (servers[0]); the Python default value None is
therefore not modelled. -/
def find {α : Type} (predicate : α → Bool) (seq : List α) (default : α) : α :=
  match seq with
  | [] => default
  | s :: rest => if predicate s then s else find predicate rest default

/-- get_servers: takes the outcome of the GraphQL query (transport error or
parsed response body) and extracts data.serverList, parsing each element into
a ServerDescription. -/
def get_servers (resp : Except PyError Json) : Except PyError (List ServerDescription) :=
  match resp with
  | .error e => .error e
  | .ok result =>
    match pySubscript result "data" with
    | .error e => .error e
    | .ok d =>
      match pySubscript d "serverList" with
      | .error e => .error e
      | .ok serverList =>
        match pyIter serverList with
        | .error e => .error e
        | .ok items => parse_server_list items

/-- get_cluster_info: takes the outcome of the GraphQL query and extracts
data.cluster, returned as the raw decoded JSON value. -/
def get_cluster_info (resp : Except PyError Json) : Except PyError Json :=
  match resp with
  | .error e => .error e
  | .ok result =>
    match pySubscript result "data" with
    | .error e => .error e
    | .ok d => pySubscript d "cluster"

/-- The expression cluster_info['clusterSelf']['uri'] of the entrypoint:
two chained subscripts on the cluster-state value. -/
def bootstraped_uri_of (cluster_info : Json) : Except PyError Json :=
  match pySubscript cluster_info "clusterSelf" with
  | .error e => .error e
  | .ok cs => pySubscript cs "uri"

/-- The expression role in cluster_info['knownRoles'] of the entrypoint:
a subscript followed by a Python membership test. -/
def role_membership (role : String) (cluster_info : Json) : Except PyError Bool :=
  match pySubscript cluster_info "knownRoles" with
  | .error e => .error e
  | .ok kr => pyContains role kr

/-- The classification at the end of assign_roles (lines 109-114): the pair
(success, data) where success is the Python expression
  'data' in data and 'createReplicasetResponse' in data['data']
  and 'errors' not in data
evaluated with short-circuiting, and data is the parsed envelope returned
verbatim.  Note the mutation aliases join_server as createReplicasetResponse,
so the key tested in the response is createReplicasetResponse. -/
def assign_roles_classify (data : Json) : Except PyError (Bool × Json) :=
  match pyContains "data" data with
  | .error e => .error e
  | .ok hasData =>
    if hasData then
      match pySubscript data "data" with
      | .error e => .error e
      | .ok dd =>
        match pyContains "createReplicasetResponse" dd with
        | .error e => .error e
        | .ok hasKey =>
          if hasKey then
            match pyContains "errors" data with
            | .error e => .error e
            | .ok hasErrors => .ok (!hasErrors, data)
          else .ok (false, data)
    else .ok (false, data)

/-- assign_roles(url, server_description, roles): asserts roles is non-empty
before constructing the GraphQL client, then issues the mutation and
classifies the parsed response.  The second component counts the network
requests issued: 0 when the assertion fires, 1 otherwise. -/
def assign_roles (roles : List String) (resp : Except PyError Json) :
    Except PyError (Bool × Json) × Nat :=
  match roles with
  | [] => (.error .assertionError, 0)
  | _ :: _ =>
      (match resp with
       | .error e => .error e
       | .ok data => assign_roles_classify data, 1)

/-- The success component of a classification outcome; an uncaught exception
never classifies the response as successful. -/
def resultSuccess : Except PyError (Bool × Json) → Bool
  | .ok (b, _) => b
  | .error _ => false

/-- The network calls the script can issue, in program order. -/
inductive NetCall where
  | ping : NetCall
  | getServers : NetCall
  | getClusterInfo : NetCall
  | assignRoles : NetCall
  deriving DecidableEq, Repr

/-- Outcome of one run of the script: normal termination (exit status 0),
explicit exit(1) after printing the raw response payload, or an uncaught
exception (Python terminates with a nonzero status). -/
inductive MainOutcome where
  | exitSuccess : MainOutcome
  | exitFail (raw : Json) : MainOutcome
  | uncaught (e : PyError) : MainOutcome
  deriving Repr

/-- The network environment one run of the script observes: the HTTP status
of the reachability probe and, for each GraphQL call, the parsed response
body, or none when the call raises a transport-level error (urllib
URLError).  The assignment mutation carries the selected server's
descriptor as variables, so its response may depend on it. -/
structure Env where
  pingStatus : Nat
  serversResp : Option Json
  clusterResp : Option Json
  assignResp : ServerDescription → Option Json

/-- The outcome of client.execute followed by json.loads: the parsed body
when the transport delivered one, a transport error otherwise. -/
def transportResult : Option Json → Except PyError Json
  | some body => .ok body
  | none => .error .transportError

/-- The process exit status of an outcome.  A Python process exits 0 on
normal termination, 1 on exit(1), and 1 on an uncaught exception. -/
def exitCode : MainOutcome → Nat
  | .exitSuccess => 0
  | .exitFail _ => 1
  | .uncaught _ => 1

/-- The URL the entrypoint uses, as a function of the command-line arguments
(sys.argv without the program name).  The source fixes
url = '127.0.0.1:8081' and never reads sys.argv, so the arguments are
ignored. -/
def mainUrl (_argv : List String) : String :=
  "127.0.0.1:8081"

/-- The script's __main__ block, parameterised by the role literal (the
source fixes it to "key-value" at both occurrences; see runMain): ping and
assert status 200; get_servers; assert servers non-empty; get_cluster_info;
read clusterSelf.uri; select key_value_server with find over the servers
with default servers[0]; assert key_value_server (a namedtuple of arity 6 is
always truthy, so this assert never fires); assert role membership in
cluster_info['knownRoles']; assign_roles; report.  Returns the outcome and
the list of network calls issued, in order. -/
def runMainWith (role : String) (env : Env) : MainOutcome × List NetCall :=
  if env.pingStatus = 200 then
    match get_servers (transportResult env.serversResp) with
    | .error e => (.uncaught e, [.ping, .getServers])
    | .ok servers =>
      if servers.isEmpty then
        (.uncaught .assertionError, [.ping, .getServers])
      else
        match get_cluster_info (transportResult env.clusterResp) with
        | .error e => (.uncaught e, [.ping, .getServers, .getClusterInfo])
        | .ok cluster_info =>
          match bootstraped_uri_of cluster_info with
          | .error e => (.uncaught e, [.ping, .getServers, .getClusterInfo])
          | .ok bootstraped_uri =>
            match pyIndex0 servers with
            | .error e => (.uncaught e, [.ping, .getServers, .getClusterInfo])
            | .ok firstServer =>
              let key_value_server :=
                find (fun server => server.uri == bootstraped_uri) servers firstServer
              match role_membership role cluster_info with
              | .error e => (.uncaught e, [.ping, .getServers, .getClusterInfo])
              | .ok mem =>
                if mem then
                  match (assign_roles [role]
                      (transportResult (env.assignResp key_value_server))).1 with
                  | .error e =>
                      (.uncaught e, [.ping, .getServers, .getClusterInfo, .assignRoles])
                  | .ok sr =>
                      if sr.1 then
                        (.exitSuccess, [.ping, .getServers, .getClusterInfo, .assignRoles])
                      else
                        (.exitFail sr.2,
                         [.ping, .getServers, .getClusterInfo, .assignRoles])
                else
                  (.uncaught .assertionError, [.ping, .getServers, .getClusterInfo])
  else
    (.uncaught .assertionError, [.ping])

/-- The script's __main__ block as written: the role is the literal
'key-value'. -/
def runMain (env : Env) : MainOutcome × List NetCall :=
  runMainWith "key-value" env

/-! ### Concrete values used in examples, witnesses and counterexamples -/

/-- The assignment-response envelope of the spec's success example: the
envelope carries the unaliased mutation name join_server. -/
def envJoinServerTrue : Json :=
  Json.obj [("data", Json.obj [("join_server", Json.bool true)])]

/-- The assignment-response envelope of the spec's failure example: the
join_server result is false and an errors field is present. -/
def envJoinServerFalseWithErrors : Json :=
  Json.obj [("data", Json.obj [("join_server", Json.bool false)]),
            ("errors", Json.arr [Json.obj [("message", Json.str "boom")]])]

/-- An assignment-response envelope carrying the aliased mutation-result key
the script actually tests for. -/
def envCreateRespTrue : Json :=
  Json.obj [("data", Json.obj [("createReplicasetResponse", Json.bool true)])]

/-- A server description with uri a:1 and all other fields None, as
parse_server_description produces from the JSON object with a single uri
entry. -/
def serverA1 : ServerDescription :=
  ⟨Json.str "a:1", Json.null, Json.null, Json.null, Json.null, Json.null⟩

/-- A server description with uri b:2 and all other fields None. -/
def serverB2 : ServerDescription :=
  ⟨Json.str "b:2", Json.null, Json.null, Json.null, Json.null, Json.null⟩

/-- A discovery response body listing one server with uri a:1. -/
def serverListBody : Json :=
  Json.obj [("data", Json.obj
    [("serverList", Json.arr [Json.obj [("uri", Json.str "a:1")]])])]

/-- The clusterSelf object of the sample cluster response: the responding
node has uri a:1. -/
def clusterSelfObj : Json :=
  Json.obj [("uri", Json.str "a:1"), ("uuid", Json.str "u1")]

/-- The known-roles list of the sample cluster response. -/
def knownRolesArr : Json :=
  Json.arr [Json.str "key-value"]

/-- The cluster object of the sample cluster response. -/
def clusterObj : Json :=
  Json.obj [("clusterSelf", clusterSelfObj),
            ("failover", Json.bool false),
            ("knownRoles", knownRolesArr),
            ("can_bootstrap_vshard", Json.bool true),
            ("vshard_bucket_count", Json.num 3000)]

/-- A cluster-state response body wrapping clusterObj. -/
def clusterBody : Json :=
  Json.obj [("data", Json.obj [("cluster", clusterObj)])]

/-- An environment whose assignment mutation returns the failure envelope:
the run reaches the assignment and ends in exit(1). -/
def envAssignFail : Env :=
  { pingStatus := 200,
    serversResp := some serverListBody,
    clusterResp := some clusterBody,
    assignResp := fun _ => some envJoinServerFalseWithErrors }

/-- An environment whose discovery returns an empty server list: the run
aborts at the assert on servers. -/
def envEmptyServers : Env :=
  { pingStatus := 200,
    serversResp := some (Json.obj [("data", Json.obj [("serverList", Json.arr [])])]),
    clusterResp := none,
    assignResp := fun _ => none }

/-! ### Helper lemmas -/

/-- The success classification of assign_roles, characterised by the three
membership tests the source performs, in terms of the Python container
semantics pyContains and pySubscript. -/
lemma assign_success_iff (env : Json) :
    resultSuccess (assign_roles_classify env) = true ↔
      (pyContains "data" env = .ok true ∧
       (∃ dd, pySubscript env "data" = .ok dd ∧
              pyContains "createReplicasetResponse" dd = .ok true) ∧
       pyContains "errors" env = .ok false) := by
  cases hd : pyContains "data" env with
  | error e => simp [assign_roles_classify, hd, resultSuccess]
  | ok b =>
    cases b with
    | false => simp [assign_roles_classify, hd, resultSuccess]
    | true =>
      cases hs : pySubscript env "data" with
      | error e => simp [assign_roles_classify, hd, hs, resultSuccess]
      | ok dd =>
        cases hk : pyContains "createReplicasetResponse" dd with
        | error e => simp [assign_roles_classify, hd, hs, hk, resultSuccess]
        | ok kb =>
          cases kb with
          | false => simp [assign_roles_classify, hd, hs, hk, resultSuccess]
          | true =>
            cases he : pyContains "errors" env with
            | error e => simp [assign_roles_classify, hd, hs, hk, he, resultSuccess]
            | ok eb =>
              cases eb <;> simp [assign_roles_classify, hd, hs, hk, he, resultSuccess]

/-- Whenever assign_roles_classify returns normally, the second component is
the input envelope, verbatim. -/
lemma assign_classify_raw (env : Json) (b : Bool) (raw : Json)
    (h : assign_roles_classify env = .ok (b, raw)) : raw = env := by
  unfold assign_roles_classify at h
  repeat' split at h
  all_goals simp_all

/-! ### Claims -/

/-- C1: the claim states that assignRole classifies an envelope as
successful iff data is present, the key join_server is present inside data,
and no errors field is present, and that the envelope with data.join_server
= true yields success.  The source tests the key createReplicasetResponse
(the alias given to join_server in the mutation text), so the envelope
keyed join_server is classified as a failure: the claim is false as
stated. -/
theorem C1_counterexample_join_server_key :
    resultSuccess (assign_roles_classify envJoinServerTrue) ≠ true := by
  decide

/-- C1 (amended): assignRole classifies an envelope as successful iff the
envelope contains a data field, the aliased mutation-result key
createReplicasetResponse is present inside data, and the envelope has no
errors field; in particular the envelope with
data.createReplicasetResponse = true yields success = true. -/
theorem C1_success_classification :
    (∀ env : Json,
        resultSuccess (assign_roles_classify env) = true ↔
          (pyContains "data" env = .ok true ∧
           (∃ dd, pySubscript env "data" = .ok dd ∧
                  pyContains "createReplicasetResponse" dd = .ok true) ∧
           pyContains "errors" env = .ok false)) ∧
    resultSuccess (assign_roles_classify envCreateRespTrue) = true :=
  ⟨assign_success_iff, by decide⟩

/-- C1 witness: the amended classification evaluated at the concrete
successful envelope. -/
theorem C1_success_classification_witness :
    resultSuccess (assign_roles_classify envCreateRespTrue) = true ∧
      (pyContains "data" envCreateRespTrue = .ok true ∧
       (∃ dd, pySubscript envCreateRespTrue "data" = .ok dd ∧
              pyContains "createReplicasetResponse" dd = .ok true) ∧
       pyContains "errors" envCreateRespTrue = .ok false) :=
  ⟨C1_success_classification.2,
   (C1_success_classification.1 envCreateRespTrue).mp C1_success_classification.2⟩

/-- C2: assignRole returns the parsed envelope verbatim alongside the
classification, whatever the outcome; for the spec's failure example (an
errors field present) the result is success = false with the raw payload
unchanged. -/
theorem C2_raw_response_verbatim :
    (∀ (env : Json) (b : Bool) (raw : Json),
        assign_roles_classify env = .ok (b, raw) → raw = env) ∧
    assign_roles_classify envJoinServerFalseWithErrors =
      .ok (false, envJoinServerFalseWithErrors) :=
  ⟨assign_classify_raw, rfl⟩

/-- C2 witness: the verbatim-payload property applied at the concrete
failure envelope. -/
theorem C2_raw_response_verbatim_witness :
    envJoinServerFalseWithErrors = envJoinServerFalseWithErrors :=
  C2_raw_response_verbatim.1 envJoinServerFalseWithErrors false
    envJoinServerFalseWithErrors C2_raw_response_verbatim.2

/-- C9: the success classification tests only the presence of the
mutation-result key, never the value bound to it: for every value v, the
envelope whose data field binds createReplicasetResponse to v (and which
has no errors field) is classified as successful — in particular for
v = false and v = null. -/
theorem C9_success_ignores_value :
    ∀ v : Json,
      resultSuccess (assign_roles_classify
        (Json.obj [("data", Json.obj [("createReplicasetResponse", v)])])) = true :=
  fun _ => rfl

/-- C6: calling assign_roles with an empty roles sequence fails the assert
before the GraphQL client is even constructed: the outcome is an
AssertionError (a caller contract violation, not a transport error) and
zero network requests are issued, whatever the network would have
answered. -/
theorem C6_empty_roles_assertion :
    ∀ resp : Except PyError Json,
      assign_roles [] resp = (.error .assertionError, 0) :=
  fun _ => rfl

/-- find with an explicit default returns the first element satisfying the
predicate, and the default when none does. -/
lemma find_eq_find?_getD {α : Type} (p : α → Bool) (l : List α) (d : α) :
    find p l d = (l.find? p).getD d := by
  induction l with
  | nil => rfl
  | cons x xs ih =>
    by_cases h : p x <;> simp [find, List.find?_cons, h, ih]

/-- C3: for a non-empty server list, the bootstrap selection (find with the
uri-equality predicate and default servers[0]) returns the first server
whose uri equals the cluster's self uri, and the first server of the list
when none matches; in particular with servers a:1 and b:2 and self uri c:3
it selects the server with uri a:1. -/
theorem C3_bootstrap_locator :
    (∀ (s0 : ServerDescription) (rest : List ServerDescription) (selfUri : Json),
        find (fun server => server.uri == selfUri) (s0 :: rest) s0 =
          ((s0 :: rest).find? (fun server => server.uri == selfUri)).getD s0) ∧
    find (fun server => server.uri == Json.str "c:3") [serverA1, serverB2] serverA1 =
      serverA1 :=
  ⟨fun s0 rest selfUri => find_eq_find?_getD (fun server => server.uri == selfUri)
      (s0 :: rest) s0, rfl⟩

/-- C4: the bootstrap selection is a pure function of the server list, the
self uri and the default: identical inputs produce the identical selected
server. -/
theorem C4_locator_deterministic :
    ∀ (nodes1 nodes2 : List ServerDescription) (uri1 uri2 : Json)
      (d1 d2 : ServerDescription),
      nodes1 = nodes2 → uri1 = uri2 → d1 = d2 →
      find (fun server => server.uri == uri1) nodes1 d1 =
        find (fun server => server.uri == uri2) nodes2 d2 := by
  intro nodes1 nodes2 uri1 uri2 d1 d2 h1 h2 h3
  rw [h1, h2, h3]

/-- C4 witness: determinism applied at a concrete server list and self
uri. -/
theorem C4_locator_deterministic_witness :
    find (fun server => server.uri == Json.str "b:2") [serverA1, serverB2] serverA1 =
      find (fun server => server.uri == Json.str "b:2") [serverA1, serverB2] serverA1 :=
  C4_locator_deterministic [serverA1, serverB2] [serverA1, serverB2]
    (Json.str "b:2") (Json.str "b:2") serverA1 serverA1 rfl rfl rfl

/-- C7: on a response envelope without a data field, both get_servers and
get_cluster_info raise (the dict subscript raises KeyError, which realises
the spec's ProtocolError) and never return a parsed value. -/
theorem C7_missing_data_protocol_error :
    ∀ entries : List (String × Json),
      (∀ kv ∈ entries, kv.1 ≠ "data") →
      get_servers (.ok (Json.obj entries)) = .error .keyError ∧
        get_cluster_info (.ok (Json.obj entries)) = .error .keyError := by
  intro entries h
  have hf : entries.find? (fun kv => kv.1 == "data") = none := by
    rw [List.find?_eq_none]
    intro kv hkv
    simpa using h kv hkv
  exact ⟨by simp [get_servers, pySubscript, hf], by simp [get_cluster_info, pySubscript, hf]⟩

/-- C7 witness: a concrete envelope with only an errors field. -/
theorem C7_missing_data_protocol_error_witness :
    get_servers (.ok (Json.obj [("errors", Json.arr [])])) = .error .keyError ∧
      get_cluster_info (.ok (Json.obj [("errors", Json.arr [])])) = .error .keyError :=
  C7_missing_data_protocol_error [("errors", Json.arr [])] (by simp)

/-- C8: the claim states the tool accepts one optional positional host:port
argument.  The source never reads sys.argv: the url is the fixed constant
127.0.0.1:8081, so a supplied positional argument is ignored. -/
theorem C8_counterexample_argv_ignored :
    mainUrl ["203.0.113.7:9090"] = "127.0.0.1:8081" ∧
      mainUrl ["203.0.113.7:9090"] ≠ "203.0.113.7:9090" :=
  ⟨rfl, by decide⟩

/-- C8 (amended): the tool takes no command-line argument — the
control-plane address is the fixed constant 127.0.0.1:8081 whatever argv
holds; the process exit status is 0 exactly when the run ends in successful
assignment, and an assignment failure ends in exit(1) after the raw
diagnostic payload is printed (the exitFail outcome carries the printed
payload). -/
theorem C8_fixed_url_and_exit_codes :
    (∀ argv : List String, mainUrl argv = "127.0.0.1:8081") ∧
    (∀ env : Env, exitCode (runMain env).1 = 0 ↔ (runMain env).1 = .exitSuccess) ∧
    (∀ (env : Env) (raw : Json),
        (runMain env).1 = .exitFail raw → exitCode (runMain env).1 = 1) := by
  refine ⟨fun _ => rfl, fun env => ?_, fun env raw h => ?_⟩
  · cases h : (runMain env).1 <;> simp [exitCode]
  · rw [h]
    rfl

/-- C8 witness: the amended statement evaluated on a run that ends in a
failed assignment. -/
theorem C8_fixed_url_and_exit_codes_witness :
    exitCode (runMain envAssignFail).1 = 1 ∧ mainUrl [] = "127.0.0.1:8081" :=
  ⟨C8_fixed_url_and_exit_codes.2.2 envAssignFail envJoinServerFalseWithErrors rfl,
   C8_fixed_url_and_exit_codes.1 []⟩

/-- The Python membership test never raises IndexError. -/
lemma pyContains_no_index (k : String) (j : Json) :
    pyContains k j ≠ .error .indexError := by
  cases j <;> simp [pyContains]

/-- The string-keyed subscript never raises IndexError. -/
lemma pySubscript_no_index (j : Json) (k : String) :
    pySubscript j k ≠ .error .indexError := by
  unfold pySubscript
  repeat' split
  all_goals simp

/-- Iteration over a decoded JSON value never raises IndexError. -/
lemma pyIter_no_index (j : Json) : pyIter j ≠ .error .indexError := by
  cases j <;> simp [pyIter]

/-- xs[0] raises exactly when the list is empty, and then IndexError. -/
lemma pyIndex0_eq_error {α : Type} (l : List α) (e : PyError) :
    pyIndex0 l = .error e ↔ l = [] ∧ e = .indexError := by
  cases l <;> simp [pyIndex0, eq_comm]

/-- Reading one optional field of a server dict never raises IndexError. -/
lemma server_description_field_no_index (kw : Json) (p : String) :
    server_description_field kw p ≠ .error .indexError := by
  intro h
  unfold server_description_field at h
  cases h1 : pyContains p kw with
  | error e =>
    rw [h1] at h
    injection h with h'
    exact pyContains_no_index p kw (h' ▸ h1)
  | ok c =>
    rw [h1] at h
    cases c with
    | false => exact Except.noConfusion h
    | true => exact pySubscript_no_index kw p h

/-- Parsing one server description never raises IndexError. -/
lemma parse_server_description_no_index (kw : Json) :
    parse_server_description kw ≠ .error .indexError := by
  intro h
  unfold parse_server_description at h
  cases h1 : server_description_field kw "uri" with
  | error e =>
    rw [h1] at h
    injection h with h'
    exact server_description_field_no_index kw "uri" (h' ▸ h1)
  | ok uri =>
    rw [h1] at h
    cases h2 : server_description_field kw "alias" with
    | error e =>
      rw [h2] at h
      injection h with h'
      exact server_description_field_no_index kw "alias" (h' ▸ h2)
    | ok aliasName =>
      rw [h2] at h
      cases h3 : server_description_field kw "status" with
      | error e =>
        rw [h3] at h
        injection h with h'
        exact server_description_field_no_index kw "status" (h' ▸ h3)
      | ok status =>
        rw [h3] at h
        cases h4 : server_description_field kw "uuid" with
        | error e =>
          rw [h4] at h
          injection h with h'
          exact server_description_field_no_index kw "uuid" (h' ▸ h4)
        | ok uuid =>
          rw [h4] at h
          cases h5 : server_description_field kw "message" with
          | error e =>
            rw [h5] at h
            injection h with h'
            exact server_description_field_no_index kw "message" (h' ▸ h5)
          | ok message =>
            rw [h5] at h
            cases h6 : server_description_field kw "replicaset" with
            | error e =>
              rw [h6] at h
              injection h with h'
              exact server_description_field_no_index kw "replicaset" (h' ▸ h6)
            | ok replicaset =>
              rw [h6] at h
              exact Except.noConfusion h

/-- Parsing the whole server list never raises IndexError. -/
lemma parse_server_list_no_index (items : List Json) :
    parse_server_list items ≠ .error .indexError := by
  induction items with
  | nil => simp [parse_server_list]
  | cons x xs ih =>
    intro h
    unfold parse_server_list at h
    cases hx : parse_server_description x with
    | error e =>
      rw [hx] at h
      injection h with h'
      exact parse_server_description_no_index x (h' ▸ hx)
    | ok s =>
      rw [hx] at h
      cases hxs : parse_server_list xs with
      | error e =>
        rw [hxs] at h
        injection h with h'
        exact ih (h' ▸ hxs)
      | ok ss =>
        rw [hxs] at h
        exact Except.noConfusion h

/-- Topology discovery never raises IndexError: its failures are transport
errors, KeyError or TypeError. -/
lemma get_servers_no_index (o : Option Json) :
    get_servers (transportResult o) ≠ .error .indexError := by
  cases o with
  | none => simp [get_servers, transportResult]
  | some body =>
    intro h
    simp only [transportResult, get_servers] at h
    cases h1 : pySubscript body "data" with
    | error e =>
      simp only [h1] at h
      injection h with h'
      exact pySubscript_no_index body "data" (h' ▸ h1)
    | ok d =>
      simp only [h1] at h
      cases h2 : pySubscript d "serverList" with
      | error e =>
        simp only [h2] at h
        injection h with h'
        exact pySubscript_no_index d "serverList" (h' ▸ h2)
      | ok sl =>
        simp only [h2] at h
        cases h3 : pyIter sl with
        | error e =>
          simp only [h3] at h
          injection h with h'
          exact pyIter_no_index sl (h' ▸ h3)
        | ok items =>
          simp only [h3] at h
          exact parse_server_list_no_index items h

/-- The cluster-state query never raises IndexError. -/
lemma get_cluster_info_no_index (o : Option Json) :
    get_cluster_info (transportResult o) ≠ .error .indexError := by
  cases o with
  | none => simp [get_cluster_info, transportResult]
  | some body =>
    intro h
    simp only [transportResult, get_cluster_info] at h
    cases h1 : pySubscript body "data" with
    | error e =>
      simp only [h1] at h
      injection h with h'
      exact pySubscript_no_index body "data" (h' ▸ h1)
    | ok d =>
      simp only [h1] at h
      exact pySubscript_no_index d "cluster" h

/-- Reading clusterSelf.uri never raises IndexError. -/
lemma bootstraped_uri_of_no_index (ci : Json) :
    bootstraped_uri_of ci ≠ .error .indexError := by
  intro h
  unfold bootstraped_uri_of at h
  cases h1 : pySubscript ci "clusterSelf" with
  | error e =>
    simp only [h1] at h
    injection h with h'
    exact pySubscript_no_index ci "clusterSelf" (h' ▸ h1)
  | ok cs =>
    simp only [h1] at h
    exact pySubscript_no_index cs "uri" h

/-- The role-membership test never raises IndexError. -/
lemma role_membership_no_index (role : String) (ci : Json) :
    role_membership role ci ≠ .error .indexError := by
  intro h
  unfold role_membership at h
  cases h1 : pySubscript ci "knownRoles" with
  | error e =>
    simp only [h1] at h
    injection h with h'
    exact pySubscript_no_index ci "knownRoles" (h' ▸ h1)
  | ok kr =>
    simp only [h1] at h
    exact pyContains_no_index role kr h

/-- The response classification of assign_roles never raises IndexError. -/
lemma assign_roles_classify_no_index (body : Json) :
    assign_roles_classify body ≠ .error .indexError := by
  intro h
  unfold assign_roles_classify at h
  repeat' split at h
  all_goals first
    | exact Except.noConfusion h
    | (injection h with h'; simp_all [pyContains_no_index, pySubscript_no_index])

/-- assign_roles with a non-empty role list never raises IndexError. -/
lemma assign_roles_no_index (r : String) (rs : List String) (o : Option Json) :
    (assign_roles (r :: rs) (transportResult o)).1 ≠ .error .indexError := by
  cases o with
  | none => simp [assign_roles, transportResult]
  | some body =>
    simp only [assign_roles, transportResult]
    exact assign_roles_classify_no_index body

/-- No run of the script, whatever the role literal and the network
behaviour, ends in an uncaught IndexError: in particular the servers[0]
default of the bootstrap selection is only evaluated behind the assert that
the server list is non-empty. -/
lemma runMainWith_no_index (role : String) (env : Env) :
    (runMainWith role env).1 ≠ .uncaught .indexError := by
  intro h
  unfold runMainWith at h
  repeat' split at h
  all_goals try simp_all [get_servers_no_index, get_cluster_info_no_index,
    bootstraped_uri_of_no_index, role_membership_no_index, pyIndex0_eq_error,
    assign_roles_no_index]
  all_goals try (split at h)
  all_goals try (split at h)
  all_goals simp_all [assign_roles_no_index]

/-- C5: whenever the run reaches the role-membership check and the requested
role is not a member of the cluster's known roles, the script aborts at the
assert (the AssertionError realises the spec's UnknownRoleError) and the
assignment mutation is never issued: no assignment network call appears in
the trace. -/
theorem C5_unknown_role_zero_assignment_calls :
    ∀ (role : String) (env : Env) (servers : List ServerDescription)
      (cluster_info buri : Json),
      env.pingStatus = 200 →
      get_servers (transportResult env.serversResp) = .ok servers →
      servers ≠ [] →
      get_cluster_info (transportResult env.clusterResp) = .ok cluster_info →
      bootstraped_uri_of cluster_info = .ok buri →
      role_membership role cluster_info = .ok false →
      (runMainWith role env).1 = .uncaught .assertionError ∧
        NetCall.assignRoles ∉ (runMainWith role env).2 := by
  intro role env servers cluster_info buri hping hserv hne hci huri hmem
  cases servers with
  | nil => exact absurd rfl hne
  | cons s ss =>
    have hrun : runMainWith role env =
        (.uncaught .assertionError, [.ping, .getServers, .getClusterInfo]) := by
      unfold runMainWith
      simp [hping, hserv, hci, huri, hmem, pyIndex0]
    rw [hrun]
    exact ⟨rfl, by decide⟩

/-- C5 witness: a concrete run requesting the role bogus against a cluster
that only knows key-value. -/
theorem C5_unknown_role_zero_assignment_calls_witness :
    (runMainWith "bogus" envAssignFail).1 = .uncaught .assertionError ∧
      NetCall.assignRoles ∉ (runMainWith "bogus" envAssignFail).2 :=
  C5_unknown_role_zero_assignment_calls "bogus" envAssignFail [serverA1]
    clusterObj (Json.str "a:1")
    rfl rfl (List.cons_ne_nil _ _) rfl rfl rfl

/-- C10: a run whose discovery returns an empty server list aborts at the
assert on servers, before the cluster-state call, the bootstrap selection
and the assignment; and no run whatsoever ends in an uncaught IndexError,
so the servers[0] fallback of the bootstrap selection never fails on
out-of-range access. -/
theorem C10_empty_discovery_aborts :
    (∀ env : Env, env.pingStatus = 200 →
        get_servers (transportResult env.serversResp) = .ok [] →
        (runMain env).1 = .uncaught .assertionError ∧
          (runMain env).2 = [NetCall.ping, NetCall.getServers]) ∧
    (∀ env : Env, (runMain env).1 ≠ .uncaught .indexError) := by
  constructor
  · intro env hping hserv
    constructor <;> simp [runMain, runMainWith, hping, hserv]
  · intro env
    exact runMainWith_no_index "key-value" env

/-- C10 witness: a concrete run whose discovery yields no servers. -/
theorem C10_empty_discovery_aborts_witness :
    (runMain envEmptyServers).1 = .uncaught .assertionError ∧
      (runMain envEmptyServers).2 = [NetCall.ping, NetCall.getServers] ∧
      (runMain envEmptyServers).1 ≠ .uncaught .indexError :=
  ⟨(C10_empty_discovery_aborts.1 envEmptyServers rfl rfl).1,
   (C10_empty_discovery_aborts.1 envEmptyServers rfl rfl).2,
   C10_empty_discovery_aborts.2 envEmptyServers⟩

end GraphqlHelper
